import Mathlib

/-!
Verification of the URL-Scrapper repository (src/Url_scraper).

The Python sources are shallowly embedded as executable Lean definitions:

* `utils/parser.py`  — block detection, DOM heuristics and JSON-LD fallback
  (`check_blocking`, `get_text_clean`, `get_json_ld`, `read_json_data`,
  `find_title`, `find_h1`, `find_meta`, `get_metric`, `get_price`,
  `get_btns`, `extract_structured_data`);
* `main.py`          — the retrying fetcher (`fetch_url_data`),
  `make_empty` and the per-URL pipeline (`start_scraping`);
* `utils/robots.py`  — the robots.txt gate (`is_allowed`).

HTML documents are modelled as a tree of element and text nodes
(BeautifulSoup results), JSON-LD blocks as already-parsed `Json` values
(the `json.loads` library call is an explicit `String -> Option Json`
environment parameter; `none` models `json.JSONDecodeError`).  Network
effects are environment parameters as well: the fetcher consumes a map
from attempt index to attempt outcome, and the robots gate consumes a map
from base domain to a fetched policy.  The second component of the
fetcher result records the `time.sleep` durations, in order, so that the
backoff claims are observable.
-/

/-! ### Python string primitives (list-level, so every proof can evaluate) -/

/-- Does `p` occur at the head of `l`?  (Helper for substring search.) -/
def leadEq : List Char → List Char → Bool
  | [], _ => true
  | _ :: _, [] => false
  | p :: ps, c :: cs => p == c && leadEq ps cs

/-- Does `pat` occur anywhere in the list?  (Python `pat in s`.) -/
def hasSubL (pat : List Char) : List Char → Bool
  | [] => leadEq pat []
  | c :: rest => leadEq pat (c :: rest) || hasSubL pat rest

/-- Python `pat in hay` on strings. -/
def hasSub (hay pat : String) : Bool := hasSubL pat.data hay.data

/-- Python `s.lower()` (ASCII, which is all this program compares). -/
def strLower (s : String) : String := String.mk (s.data.map Char.toLower)

/-- Python `s.strip()`: drop leading and trailing whitespace. -/
def strTrim (s : String) : String :=
  String.mk (((s.data.dropWhile Char.isWhitespace).reverse.dropWhile Char.isWhitespace).reverse)

/-- Python `s.capitalize()`: first character upper-cased, the rest lower-cased. -/
def pyCapitalize (s : String) : String :=
  match s.data with
  | [] => ""
  | c :: rest => String.mk (c.toUpper :: rest.map Char.toLower)

/-- Python `sep.join(parts)`. -/
def joinStr (sep : String) : List String → String
  | [] => ""
  | [s] => s
  | s :: rest => s ++ sep ++ joinStr sep rest

/-- Fuel-driven core of Python `s.replace(pat, rep)` (left-to-right,
non-overlapping); fuel = length of the scanned list keeps it structural. -/
def replFuel (pat rep : List Char) : Nat → List Char → List Char
  | 0, l => l
  | _ + 1, [] => []
  | fuel + 1, c :: rest =>
    if pat.length != 0 && leadEq pat (c :: rest) then
      rep ++ replFuel pat rep fuel (rest.drop (pat.length - 1))
    else
      c :: replFuel pat rep fuel rest

/-- Python `s.replace(pat, rep)` for a non-empty pattern. -/
def replaceStr (s pat rep : String) : String :=
  String.mk (replFuel pat.data rep.data s.data.length s.data)

/-- Python `a or b or ... or ""` over optional strings (`None` and `""` falsy). -/
def pyOr : List (Option String) → String
  | [] => ""
  | some s :: rest => if s = "" then pyOr rest else s
  | none :: rest => pyOr rest

/-- Split `l` at the first occurrence of `pat`, removing it.  Helper for the
`urllib.parse` model (`urlparse` / `urljoin`). -/
def breakSub (pat : List Char) : List Char → Option (List Char × List Char)
  | [] => if pat = [] then some ([], []) else none
  | c :: rest =>
    if leadEq pat (c :: rest) then some ([], (c :: rest).drop pat.length)
    else
      match breakSub pat rest with
      | some (a, b) => some (c :: a, b)
      | none => none

/-! ### DOM model (BeautifulSoup results) -/

mutual
/-- A parsed markup node: an element (tag, attributes, optional class list as
BeautifulSoup splits it, children) or a text node. -/
inductive Node where
  | elem : String → List (String × String) → Option (List String) → NodeList → Node
  | text : String → Node

/-- Children / document roots, kept as a dedicated list so that all
recursions over the tree stay structural. -/
inductive NodeList where
  | nil : NodeList
  | cons : Node → NodeList → NodeList
end

/-- Tag name of a node (text nodes have none). -/
def tagOf : Node → String
  | Node.elem t _ _ _ => t
  | Node.text _ => ""

/-- Single-valued attribute lookup, Python `e.get(key)`. -/
def getAttr (n : Node) (key : String) : Option String :=
  match n with
  | Node.text _ => none
  | Node.elem _ attrs _ _ => (attrs.find? (fun p => p.1 == key)).map (fun p => p.2)

/-- The multi-valued `class` attribute, Python `e.get("class")`. -/
def classesOf : Node → Option (List String)
  | Node.elem _ _ cs _ => cs
  | Node.text _ => none

mutual
/-- All text-node strings below a node, in document order. -/
def nodeTexts : Node → List String
  | Node.text s => [s]
  | Node.elem _ _ _ cs => nodeListTexts cs

/-- All text-node strings below a node list, in document order. -/
def nodeListTexts : NodeList → List String
  | NodeList.nil => []
  | NodeList.cons n ns => nodeTexts n ++ nodeListTexts ns
end

mutual
/-- All element nodes of a subtree in document (pre-)order; this is the
traversal order BeautifulSoup `find` / `find_all` use. -/
def allElems : Node → List Node
  | Node.text _ => []
  | Node.elem t a c cs => Node.elem t a c cs :: allElemsList cs

/-- All element nodes below a node list, in document order. -/
def allElemsList : NodeList → List Node
  | NodeList.nil => []
  | NodeList.cons n ns => allElems n ++ allElemsList ns
end

/-- `get_text_clean` of parser.py: `element.get_text(" ", strip=True)` joins
the stripped text descendants (dropping ones that strip to empty) with a
single space. -/
def getTextClean (n : Node) : String :=
  joinStr " " (((nodeTexts n).map strTrim).filter (fun s => s != ""))

/-- `element.get_text(strip=True)` (no separator), used for script bodies. -/
def getTextStrip (n : Node) : String :=
  joinStr "" (((nodeTexts n).map strTrim).filter (fun s => s != ""))

/-- BeautifulSoup `element.string`: the single text child, if that is the
whole content. -/
def nodeString : Node → Option String
  | Node.elem _ _ _ (NodeList.cons (Node.text s) NodeList.nil) => some s
  | _ => none

/-! ### Block detection (parser.py `check_blocking`) -/

/-- `_BLOCK_KEYWORDS` of parser.py. -/
def _BLOCK_KEYWORDS : List String :=
  ["captcha", "blocked", "access denied", "unusual traffic",
   "verify you are human", "bot detected", "rate limit"]

/-- `check_blocking` of parser.py: status 403/429/503 always blocks; otherwise
the lower-cased body is scanned for any blocking keyword.  (The
`except`-branch that treats an undecodable body as not blocked cannot fire in
this total model, where the body is already a string.) -/
def check_blocking (status : Nat) (body : String) : Bool :=
  if status = 403 ∨ status = 429 ∨ status = 503 then true
  else _BLOCK_KEYWORDS.any (fun k => hasSub (strLower body) k)

/-! ### JSON-LD model (parser.py `get_json_ld` / `read_json_data`) -/

/-- A parsed JSON value.  Numbers carry the string Python `str()` prints for
them, since the program only ever converts them to strings. -/
inductive Json where
  | null : Json
  | bool : Bool → Json
  | num : String → Json
  | str : String → Json
  | arr : List Json → Json
  | obj : List (String × Json) → Json

/-- Python `isinstance(x, dict)`. -/
def isJsonObj : Json → Bool
  | Json.obj _ => true
  | _ => false

/-- Dictionary lookup in a JSON object. -/
def jsonLookup (fields : List (String × Json)) (k : String) : Option Json :=
  (fields.find? (fun p => p.1 == k)).map (fun p => p.2)

/-- Walk a key path through nested JSON dictionaries (the inner loop of
`read_json_data`): fails as soon as the current value is not a dictionary
containing the key. -/
def walkPath : Json → List String → Option Json
  | j, [] => some j
  | Json.obj fs, k :: rest =>
    match jsonLookup fs k with
    | some v => walkPath v rest
    | none => none
  | _, _ :: _ => none

/-- Python `str(curr)` for the `isinstance(curr, (str, int, float))` check of
`read_json_data`; `bool` is an `int` in Python, so it passes too. -/
def jsonToStrVal : Json → Option String
  | Json.str s => some s
  | Json.num s => some s
  | Json.bool b => some (if b then "True" else "False")
  | _ => none

/-- `read_json_data` of parser.py: the first object whose path resolves to a
non-null string/number value wins; objects where the path fails to resolve or
resolves to another kind of value are skipped. -/
def read_json_data : List Json → List String → Option String
  | [], _ => none
  | o :: rest, path =>
    match walkPath o path with
    | some v =>
      match jsonToStrVal v with
      | some s => some s
      | none => read_json_data rest path
    | none => read_json_data rest path

/-- Concatenation map over a list (document-order accumulation). -/
def concatMapL (f : α → List β) : List α → List β
  | [] => []
  | a :: l => f a ++ concatMapL f l

/-- The raw content of a JSON-LD script block:
`s.string or s.get_text(strip=True)`. -/
def scriptRaw (e : Node) : String :=
  match nodeString e with
  | some s => if s = "" then getTextStrip e else s
  | none => getTextStrip e

/-- `soup.find_all("script", attrs={"type": "application/ld+json"})`. -/
def jsonScripts (soup : NodeList) : List Node :=
  (allElemsList soup).filter
    (fun e => tagOf e == "script" && getAttr e "type" == some "application/ld+json")

/-- The objects one script block contributes in `get_json_ld`: a JSON array
keeps its dictionary members; a dictionary first contributes the dictionary
members of its `@graph` array (when that key holds a list) and then itself;
anything else — including a block `json.loads` rejects — is skipped. -/
def jsonItemsOf (loads : String → Option Json) (e : Node) : List Json :=
  if scriptRaw e = "" then []
  else
    match loads (scriptRaw e) with
    | none => []
    | some (Json.arr l) => l.filter isJsonObj
    | some (Json.obj fs) =>
      (match jsonLookup fs "@graph" with
       | some (Json.arr g) => g.filter isJsonObj
       | _ => []) ++ [Json.obj fs]
    | some _ => []

/-- `get_json_ld` of parser.py, with `json.loads` passed in as the `loads`
environment. -/
def get_json_ld (loads : String → Option Json) (soup : NodeList) : List Json :=
  concatMapL (jsonItemsOf loads) (jsonScripts soup)

/-! ### Field extractors of parser.py -/

/-- `find_title`: text of `soup.find("title")`, `None` when missing or empty. -/
def find_title (soup : NodeList) : Option String :=
  match (allElemsList soup).find? (fun e => tagOf e == "title") with
  | none => none
  | some tag => if getTextClean tag = "" then none else some (getTextClean tag)

/-- `find_h1`: text of the first `h1`, `None` when missing or empty. -/
def find_h1 (soup : NodeList) : Option String :=
  match (allElemsList soup).filter (fun e => tagOf e == "h1") with
  | [] => none
  | tag :: _ => if getTextClean tag = "" then none else some (getTextClean tag)

/-- `find_meta`: `content` attribute of `<meta name="description">`, stripped;
`None` when the tag or a non-empty content value is missing. -/
def find_meta (soup : NodeList) : Option String :=
  match (allElemsList soup).find?
      (fun e => tagOf e == "meta" && getAttr e "name" == some "description") with
  | none => none
  | some m =>
    match getAttr m "content" with
    | none => none
    | some c =>
      if c = "" then none
      else if strTrim c = "" then none else some (strTrim c)

/-- Does an element carry `itemprop=ip`?  (The `soup.find(attrs={"itemprop":
ip})` predicate of `get_metric` / `get_price`.) -/
def hasItemprop (ip : String) (e : Node) : Bool :=
  getAttr e "itemprop" == some ip

/-- The `aria-label` predicate of `get_metric`: an `aria-label` attribute whose
lower-cased value contains the metric name. -/
def ariaMatches (ty : String) (e : Node) : Bool :=
  match getAttr e "aria-label" with
  | some x => hasSub (strLower x) ty
  | none => false

/-- `" ".join(cls_list).lower()` for an element (empty when no class). -/
def combinedClasses (e : Node) : String :=
  strLower (joinStr " " ((classesOf e).getD []))

/-- The itemprop stage shared by `get_metric` and `get_price`: element text,
or else the stripped `content` attribute; fall through when both are empty. -/
def metricItemprop (soup : NodeList) (ip : String) : Option String :=
  match (allElemsList soup).find? (fun e => hasItemprop ip e) with
  | none => none
  | some m =>
    let v := if getTextClean m = "" then strTrim ((getAttr m "content").getD "")
             else getTextClean m
    if v = "" then none else some v

/-- The aria-label stage of `get_metric`. -/
def metricAria (soup : NodeList) (ty : String) : Option String :=
  match (allElemsList soup).find? (fun e => ariaMatches ty e) with
  | none => none
  | some m => if getTextClean m = "" then none else some (getTextClean m)

/-- The class-matching loop of `get_metric` over `find_all(True, class_=True)`:
on a keyword hit, non-empty text wins; for ratings an empty text falls back to
the class string itself with the `star-rating` marker removed, stripped and
capitalized; otherwise the scan continues. -/
def metricClassLoop (ty : String) (keys : List String) : List Node → Option String
  | [] => none
  | e :: rest =>
    if keys.any (fun k => hasSub (combinedClasses e) k) then
      if getTextClean e = "" then
        if ty = "rating" then
          some (pyCapitalize (strTrim (replaceStr (combinedClasses e) "star-rating" "")))
        else metricClassLoop ty keys rest
      else some (getTextClean e)
    else metricClassLoop ty keys rest

/-- `get_metric` of parser.py: itemprop, then aria-label, then class keywords. -/
def get_metric (soup : NodeList) (ty : String) : Option String :=
  let keys := if ty = "rating" then ["rating", "stars", "score"] else ["review", "count"]
  let ip := if ty = "rating" then "ratingValue" else "reviewCount"
  match metricItemprop soup ip with
  | some v => some v
  | none =>
    match metricAria soup ty with
    | some v => some v
    | none =>
      metricClassLoop ty keys ((allElemsList soup).filter (fun e => (classesOf e).isSome))

/-- The tags `get_price` scans, in its fixed order. -/
def priceScanTags : List String := ["div", "span", "p", "li", "section", "a", "button"]

/-- `f"{classes} {eid}".lower()` of `get_price`. -/
def priceClassId (e : Node) : String :=
  strLower (joinStr " " ((classesOf e).getD []) ++ " " ++ (getAttr e "id").getD "")

/-- The inner element scan of `get_price`: first keyword-matching element with
non-empty text wins. -/
def priceLoop : List Node → Option String
  | [] => none
  | e :: rest =>
    if (["price", "pricing", "plan", "cost"] : List String).any
        (fun k => hasSub (priceClassId e) k) then
      if getTextClean e = "" then priceLoop rest else some (getTextClean e)
    else priceLoop rest

/-- The outer tag loop of `get_price`: all elements of one tag are scanned
before the next tag. -/
def priceTagLoop (soup : NodeList) : List String → Option String
  | [] => none
  | t :: ts =>
    match priceLoop ((allElemsList soup).filter (fun e => tagOf e == t)) with
    | some v => some v
    | none => priceTagLoop soup ts

/-- `get_price` of parser.py. -/
def get_price (soup : NodeList) : Option String :=
  match metricItemprop soup "price" with
  | some v => some v
  | none => priceTagLoop soup priceScanTags

/-! ### CTA extraction (parser.py `get_btns`) -/

/-- `_CTA_KEYWORDS` of parser.py. -/
def _CTA_KEYWORDS : List String :=
  ["get", "start", "try", "sign", "buy", "free", "demo", "download", "join",
   "subscribe", "add"]

/-- Model of `urllib.parse.urljoin` for the reference shapes this program
produces: absolute references, scheme-relative (`//…`), absolute-path (`/…`)
and bare relative references, against a `scheme://host/path` base; query and
fragment handling is not needed here. -/
def urljoin (base ref : String) : String :=
  if ref = "" then base
  else if hasSub ref "://" then ref
  else
    match breakSub ("://".data) base.data with
    | none => ref
    | some (scheme, rest) =>
      let netloc := String.mk (rest.takeWhile (fun c => c != '/'))
      let path := rest.dropWhile (fun c => c != '/')
      if leadEq ("//".data) ref.data then String.mk scheme ++ ":" ++ ref
      else if leadEq ("/".data) ref.data then String.mk scheme ++ "://" ++ netloc ++ ref
      else
        let dir := (path.reverse.dropWhile (fun c => c != '/')).reverse
        String.mk scheme ++ "://" ++ netloc ++
          (if dir = [] then "/" else String.mk dir) ++ ref

/-- A call-to-action entry (`{"text": ..., "href": ...}`). -/
structure Cta where
  text : String
  href : String
deriving DecidableEq, Repr

/-- The href one `get_btns` candidate gets: for links, the stripped `href`
attribute resolved against the page URL when non-empty; the initial `""` for
everything else. -/
def ctaHref (url : String) (e : Node) : String :=
  if tagOf e = "a" then
    if strTrim ((getAttr e "href").getD "") = "" then ""
    else urljoin url (strTrim ((getAttr e "href").getD ""))
  else ""

/-- The display text `get_btns` derives for an input element:
`(e.get("value") or e.get("placeholder") or "").strip()`. -/
def ctaInputText (e : Node) : String :=
  strTrim (pyOr [getAttr e "value", getAttr e "placeholder"])

/-- One iteration body of the `get_btns` loop, split out so the final keyword
check is shared by the input and non-input paths: skip on empty text, resolve
`href` for links only, keep the entry when text or link contains a CTA
keyword. -/
def ctaFinish (url : String) (e : Node) (t : String) : Option Cta :=
  if t = "" then none
  else if _CTA_KEYWORDS.any
      (fun k => hasSub (strLower t) k || hasSub (strLower (ctaHref url e)) k) then
    some { text := t, href := ctaHref url e }
  else none

/-- What one candidate element contributes in `get_btns`: inputs take their
`value`/`placeholder` as text and are dropped early when they are not
submit/button inputs and have no text; other elements take their visible
text. -/
def ctaOfElem (url : String) (e : Node) : Option Cta :=
  if tagOf e = "input" then
    if (getAttr e "type" ≠ some "submit" ∧ getAttr e "type" ≠ some "button") ∧
        ctaInputText e = "" then
      none
    else ctaFinish url e (ctaInputText e)
  else ctaFinish url e (getTextClean e)

/-- `get_btns` of parser.py: scan `a`/`button`/`input` elements in document
order, keeping the qualifying ones. -/
def get_btns (soup : NodeList) (url : String) : List Cta :=
  ((allElemsList soup).filter
      (fun e => tagOf e == "a" || tagOf e == "button" || tagOf e == "input")).filterMap
    (ctaOfElem url)

/-! ### Records and `extract_structured_data` -/

/-- One output record (the dict `make_empty` / `extract_structured_data`
build). -/
structure Rec where
  url : String
  title : Option String
  h1 : Option String
  meta_description : Option String
  rating : Option String
  review_count : Option String
  pricing : Option String
  ctas : List Cta
  status : String
deriving DecidableEq, Repr

/-- `make_empty` of main.py. -/
def make_empty (url : String) (status : String) : Rec :=
  { url := url, title := none, h1 := none, meta_description := none,
    rating := none, review_count := none, pricing := none, ctas := [],
    status := status }

/-- Result of `BeautifulSoup(html, "html.parser")`: the parsed tree, or the
exception path of `extract_structured_data` (the only statement inside its
`try` that can raise, since every helper catches its own exceptions). -/
inductive ParseOutcome where
  | ok : NodeList → ParseOutcome
  | fail : ParseOutcome

/-- First-non-`None` chaining (`x = a; if x is None: x = b`). -/
def orElseOpt (a b : Option String) : Option String :=
  match a with
  | some v => some v
  | none => b

/-- `extract_structured_data` of parser.py: DOM heuristics first, JSON-LD
fallback second for rating / review count / pricing; on a parse failure the
initial all-`None` dict is returned with status `failed`. -/
def extract_structured_data (loads : String → Option Json) (url : String)
    (p : ParseOutcome) : Rec :=
  match p with
  | ParseOutcome.fail =>
    { url := url, title := none, h1 := none, meta_description := none,
      rating := none, review_count := none, pricing := none, ctas := [],
      status := "failed" }
  | ParseOutcome.ok soup =>
    let objs := get_json_ld loads soup
    { url := url
      title := find_title soup
      h1 := find_h1 soup
      meta_description := find_meta soup
      rating := orElseOpt (get_metric soup "rating")
        (read_json_data objs ["aggregateRating", "ratingValue"])
      review_count := orElseOpt (get_metric soup "review_count")
        (orElseOpt (read_json_data objs ["aggregateRating", "reviewCount"])
          (read_json_data objs ["aggregateRating", "ratingCount"]))
      pricing := orElseOpt (get_price soup) (read_json_data objs ["offers", "price"])
      ctas := get_btns soup url
      status := "ok" }

/-! ### The fetcher (main.py `fetch_url_data`) -/

/-- What one `requests.get` attempt produces: a transport-level exception or a
response with status code and body text. -/
inductive Attempt where
  | raise : Attempt
  | resp : Nat → String → Attempt

/-- A received response (status code and body text). -/
structure Resp where
  status : Nat
  body : String
deriving DecidableEq, Repr

/-- What `fetch_url_data` returns: `failed` models Python `None`; `resp r b`
models the response object with its `_was_blocked` flag `b`. -/
inductive FetchOut where
  | failed : FetchOut
  | resp : Resp → Bool → FetchOut
deriving DecidableEq, Repr

/-- `retry_codes` of `fetch_url_data`. -/
def retry_codes : List Nat := [429, 500, 502, 503, 504]

/-- Prepend one recorded `time.sleep` duration to a fetch trace. -/
def withSleep (d : Nat) (p : FetchOut × List Nat) : FetchOut × List Nat :=
  (p.1, d :: p.2)

/-- The `for i in range(tries + 1)` loop of `fetch_url_data`; `fuel` is the
number of remaining loop iterations and `i` the current attempt index.  The
second result component lists the backoff sleeps performed, in order. -/
def fetchAux (att : Nat → Attempt) (tries wait : Nat) : Nat → Nat → FetchOut × List Nat
  | _, 0 => (FetchOut.failed, [])
  | i, fuel + 1 =>
    match att i with
    | Attempt.raise =>
      if i < tries then withSleep (wait * 2 ^ i) (fetchAux att tries wait (i + 1) fuel)
      else (FetchOut.failed, [])
    | Attempt.resp st body =>
      if check_blocking st body then (FetchOut.resp ⟨st, body⟩ true, [])
      else if st = 403 then (FetchOut.resp ⟨st, body⟩ false, [])
      else if st ∈ retry_codes then
        if i < tries then withSleep (wait * 2 ^ i) (fetchAux att tries wait (i + 1) fuel)
        else (FetchOut.failed, [])
      else if 400 ≤ st then (FetchOut.failed, [])
      else (FetchOut.resp ⟨st, body⟩ false, [])

/-- `fetch_url_data` of main.py, over an environment `att` giving the outcome
of each attempt (the call sites use the defaults `tries = 3`, `wait = 2`). -/
def fetch_url_data (att : Nat → Attempt) (tries wait : Nat) : FetchOut × List Nat :=
  fetchAux att tries wait 0 (tries + 1)

/-! ### The robots gate (utils/robots.py) -/

/-- `_get_base_domain`: `f"{scheme}://{netloc}"` from `urllib.parse.urlparse`,
modelled for `scheme://host/path` URL shapes (netloc ends at `/`, `?` or
`#`; a URL with no `://` has empty scheme and netloc). -/
def get_base_domain (url : String) : String :=
  match breakSub ("://".data) url.data with
  | some (scheme, rest) =>
    String.mk scheme ++ "://" ++
      String.mk (rest.takeWhile (fun c => c != '/' && c != '?' && c != '#'))
  | none => "://"

/-- The denial reason `is_allowed` formats. -/
def disallow_reason (agent : String) : String :=
  "Robots.txt disallowed access for agent '" ++ agent ++ "'"

/-- `is_allowed` of utils/robots.py.  `robotsEnv` models `_get_robot_parser`:
for a base domain it yields `none` when the robots.txt could not be read or
parsed, otherwise the parsed policy as its `can_fetch(agent, url)`
predicate. -/
def is_allowed (robotsEnv : String → Option (String → String → Bool))
    (url agent : String) : Bool × String :=
  match robotsEnv (get_base_domain url) with
  | none => (true, "")
  | some canFetch =>
    if canFetch agent url then (true, "")
    else (false, disallow_reason agent)

/-! ### The pipeline (main.py `start_scraping`) -/

/-- Everything the outside world decides about processing one URL: whether an
exception escapes uncaught inside the per-URL `try` body, the robots.txt
environment, the outcome of each fetch attempt, the `json.loads` library and
the `BeautifulSoup` parse of the fetched body. -/
structure UrlEnv where
  raises : Bool
  robots : String → Option (String → String → Bool)
  att : Nat → Attempt
  loads : String → Option Json
  parse : String → ParseOutcome

/-- The per-URL body of `start_scraping`: the uncaught-exception handler wraps
everything; then robots check (default agent), fetch (defaults `3`, `2`),
blocked flag, HTTP-error check, extraction. -/
def process_url (env : UrlEnv) (url : String) : Rec :=
  if env.raises then make_empty url "failed"
  else if (is_allowed env.robots url "scraper_project/1.0").1 then
    match (fetch_url_data env.att 3 2).1 with
    | FetchOut.failed => make_empty url "failed"
    | FetchOut.resp r blocked =>
      if blocked then make_empty url "blocked"
      else if 400 ≤ r.status then make_empty url "failed"
      else extract_structured_data env.loads url (env.parse r.body)
  else make_empty url "skipped"

/-- `start_scraping` of main.py: one appended record per input URL, in input
order; `world` supplies the environment each URL meets. -/
def start_scraping (world : String → UrlEnv) : List String → List Rec
  | [] => []
  | url :: rest => process_url (world url) url :: start_scraping world rest

/-! ## Helper lemmas -/

/-- A 403 response always trips the block detector, whatever the body. -/
theorem check_blocking_403 (body : String) : check_blocking 403 body = true := by
  simp [check_blocking]

/-- A body containing `captcha` (after lower-casing) trips the block detector
at every status code. -/
theorem check_blocking_of_captcha (st : Nat) (body : String)
    (h : hasSub (strLower body) "captcha" = true) : check_blocking st body = true := by
  unfold check_blocking
  split
  · rfl
  · rw [List.any_eq_true]
    exact ⟨"captcha", by simp [_BLOCK_KEYWORDS], h⟩

/-- The block detector is quiet when the status is not 403/429/503 and no
blocking keyword occurs in the lower-cased body. -/
theorem check_blocking_eq_false (st : Nat) (body : String)
    (h1 : ¬(st = 403 ∨ st = 429 ∨ st = 503))
    (h2 : ∀ k ∈ _BLOCK_KEYWORDS, hasSub (strLower body) k = false) :
    check_blocking st body = false := by
  unfold check_blocking
  rw [if_neg h1, List.any_eq_false]
  intro k hk
  simp [h2 k hk]

/-- When the first attempt yields a response the block detector flags, the
fetch loop returns it at once, with no sleeps, whatever the retry budget. -/
theorem fetch_first_blocked (att : Nat → Attempt) (st : Nat) (body : String)
    (hatt : att 0 = Attempt.resp st body) (hcb : check_blocking st body = true) :
    ∀ tries wait : Nat,
      fetch_url_data att tries wait = (FetchOut.resp ⟨st, body⟩ true, []) := by
  intro tries wait
  unfold fetch_url_data
  simp [fetchAux, hatt, hcb]

/-- The per-URL pipeline maps a blocked fetch result to a `blocked` record. -/
theorem process_url_of_blocked (env : UrlEnv) (url : String) (st : Nat) (body : String)
    (hr : env.raises = false)
    (ha : (is_allowed env.robots url "scraper_project/1.0").1 = true)
    (hf : (fetch_url_data env.att 3 2).1 = FetchOut.resp ⟨st, body⟩ true) :
    process_url env url = make_empty url "blocked" := by
  unfold process_url
  simp [hr, ha, hf]

/-- When every reachable attempt yields a retryable, non-blocking response,
the fetch loop walks all remaining iterations, sleeping `wait * 2 ^ j` before
each retry, and ends with a failure. -/
theorem fetchAux_exhausts (att : Nat → Attempt) (tries wait : Nat)
    (hatt : ∀ j, j ≤ tries → ∃ st body, att j = Attempt.resp st body ∧
      st ∈ ([500, 502, 504] : List Nat) ∧
      ∀ k ∈ _BLOCK_KEYWORDS, hasSub (strLower body) k = false) :
    ∀ fuel i, i + fuel = tries + 1 →
      fetchAux att tries wait i fuel =
        (FetchOut.failed, (List.range' i (tries - i)).map (fun j => wait * 2 ^ j)) := by
  intro fuel
  induction fuel with
  | zero =>
    intro i hi
    have h0 : tries - i = 0 := by omega
    simp [fetchAux, h0]
  | succ fuel ih =>
    intro i hi
    have hile : i ≤ tries := by omega
    obtain ⟨st, body, ha, hst, hkw⟩ := hatt i hile
    have hnotbs : ¬(st = 403 ∨ st = 429 ∨ st = 503) := by
      simp only [List.mem_cons, List.not_mem_nil, or_false] at hst
      omega
    have hcb : check_blocking st body = false := check_blocking_eq_false st body hnotbs hkw
    have h403 : ¬st = 403 := by
      simp only [List.mem_cons, List.not_mem_nil, or_false] at hst
      omega
    have hrc : st ∈ retry_codes := by
      simp only [List.mem_cons, List.not_mem_nil, or_false] at hst
      rcases hst with h | h | h <;> simp [retry_codes, h]
    simp only [fetchAux, ha, hcb, Bool.false_eq_true, if_false, if_neg h403, if_pos hrc]
    by_cases hlt : i < tries
    · rw [if_pos hlt, ih (i + 1) (by omega)]
      have hsp : tries - i = (tries - (i + 1)) + 1 := by omega
      rw [hsp, List.range'_succ]
      simp [withSleep]
    · have hie : i = tries := by omega
      rw [if_neg hlt]
      have h0 : tries - i = 0 := by omega
      simp [h0]

/-! ## Claim C1 -/

/-- C1 counterexample: on a response with status 403 the fetcher does not
return `Failed` — it returns the response flagged blocked (`check_blocking`
fires on status 403 before the dedicated 403 branch is reached), with zero
sleeps. -/
theorem fetch_403_cex :
    fetch_url_data (fun _ => Attempt.resp 403 "forbidden page") 3 2 =
      (FetchOut.resp ⟨403, "forbidden page"⟩ true, []) ∧
    (FetchOut.resp ⟨403, "forbidden page"⟩ true : FetchOut) ≠ FetchOut.failed :=
  ⟨by decide, by decide⟩

/-- C1 (amended): for every fetch whose response has HTTP status exactly 403
(and any body), the block detector flags it, so the fetcher returns the
response as Blocked immediately — zero retries, zero backoff sleeps — and the
pipeline records status `blocked` for that URL. -/
theorem fetch_403_blocked (att : Nat → Attempt) (tries wait : Nat) (body : String)
    (hatt : att 0 = Attempt.resp 403 body) :
    fetch_url_data att tries wait = (FetchOut.resp ⟨403, body⟩ true, []) ∧
    ∀ env : UrlEnv, ∀ url : String, env.att = att → env.raises = false →
      (is_allowed env.robots url "scraper_project/1.0").1 = true →
      process_url env url = make_empty url "blocked" := by
  have hf := fetch_first_blocked att 403 body hatt (check_blocking_403 body)
  refine ⟨hf tries wait, ?_⟩
  intro env url henv hr ha
  exact process_url_of_blocked env url 403 body hr ha (by rw [henv, hf 3 2])

/-- C1 witness: concrete 403 fetch and its pipeline record. -/
theorem fetch_403_blocked_witness :
    fetch_url_data (fun _ => Attempt.resp 403 "no entry") 3 2 =
      (FetchOut.resp ⟨403, "no entry"⟩ true, []) ∧
    process_url
      { raises := false, robots := fun _ => none,
        att := fun _ => Attempt.resp 403 "no entry",
        loads := fun _ => none, parse := fun _ => ParseOutcome.fail }
      "https://c1.example/p" = make_empty "https://c1.example/p" "blocked" := by
  have h := fetch_403_blocked (fun _ => Attempt.resp 403 "no entry") 3 2 "no entry" rfl
  exact ⟨h.1, h.2 _ "https://c1.example/p" rfl rfl (by decide)⟩

/-! ## Claim C2 -/

/-- C2 counterexample: status 429 is in the retryable set, yet a fetch whose
attempts all return 429 performs zero retries and does not return `Failed`:
429 trips the block detector first, so the first response comes back Blocked
with no sleeps. -/
theorem fetch_retry_cex :
    fetch_url_data (fun _ => Attempt.resp 429 "slow down") 3 2 =
      (FetchOut.resp ⟨429, "slow down"⟩ true, []) ∧
    (FetchOut.resp ⟨429, "slow down"⟩ true : FetchOut) ≠ FetchOut.failed :=
  ⟨by decide, by decide⟩

/-- C2 (amended): for every fetch where each attempt yields a response whose
status is retryable and not block-detected — that is, in `{500, 502, 504}`
(429 and 503 are intercepted as blocking first) with a body free of blocking
keywords — the fetcher performs exactly `tries` retries (`tries + 1` attempts),
sleeping `wait * 2 ^ i` seconds before retry `i` (`i` starting at 0), and then
returns `Failed`. -/
theorem fetch_retry_exhaustion (att : Nat → Attempt) (tries wait : Nat)
    (hatt : ∀ j, j ≤ tries → ∃ st body, att j = Attempt.resp st body ∧
      st ∈ ([500, 502, 504] : List Nat) ∧
      ∀ k ∈ _BLOCK_KEYWORDS, hasSub (strLower body) k = false) :
    fetch_url_data att tries wait =
      (FetchOut.failed, (List.range tries).map (fun i => wait * 2 ^ i)) := by
  unfold fetch_url_data
  rw [fetchAux_exhausts att tries wait hatt (tries + 1) 0 (by omega)]
  simp [List.range_eq_range']

/-- C2 witness: a server answering 500 on every attempt exhausts the default
budget of 3 retries with backoff sleeps 2, 4, 8 and ends in `Failed`. -/
theorem fetch_retry_exhaustion_witness :
    fetch_url_data (fun _ => Attempt.resp 500 "internal server error") 3 2 =
      (FetchOut.failed, [2, 4, 8]) := by
  rw [fetch_retry_exhaustion (fun _ => Attempt.resp 500 "internal server error") 3 2
    (fun j _ => ⟨500, "internal server error", rfl, by decide, by decide⟩)]
  decide

/-! ## Claim C5 -/

/-- C5: for every fetch whose first response body contains `captcha` in any
letter case — whatever the status code — the fetcher returns the response as
Blocked immediately with zero retries and zero sleeps, and the pipeline
records status `blocked` for that URL. -/
theorem captcha_blocked (att : Nat → Attempt) (tries wait st : Nat) (body : String)
    (hatt : att 0 = Attempt.resp st body)
    (hcap : hasSub (strLower body) "captcha" = true) :
    fetch_url_data att tries wait = (FetchOut.resp ⟨st, body⟩ true, []) ∧
    ∀ env : UrlEnv, ∀ url : String, env.att = att → env.raises = false →
      (is_allowed env.robots url "scraper_project/1.0").1 = true →
      process_url env url = make_empty url "blocked" := by
  have hf := fetch_first_blocked att st body hatt (check_blocking_of_captcha st body hcap)
  refine ⟨hf tries wait, ?_⟩
  intro env url henv hr ha
  exact process_url_of_blocked env url st body hr ha (by rw [henv, hf 3 2])

/-- C5 witness: a 200 response whose body shows a mixed-case CAPTCHA challenge
is returned Blocked with no sleeps, and the pipeline records `blocked`. -/
theorem captcha_blocked_witness :
    fetch_url_data (fun _ => Attempt.resp 200 "Please solve this CaPtChA to continue") 3 2 =
      (FetchOut.resp ⟨200, "Please solve this CaPtChA to continue"⟩ true, []) ∧
    process_url
      { raises := false, robots := fun _ => none,
        att := fun _ => Attempt.resp 200 "Please solve this CaPtChA to continue",
        loads := fun _ => none, parse := fun _ => ParseOutcome.fail }
      "https://c5.example/p" = make_empty "https://c5.example/p" "blocked" := by
  have h := captcha_blocked (fun _ => Attempt.resp 200 "Please solve this CaPtChA to continue")
    3 2 200 "Please solve this CaPtChA to continue" rfl (by decide)
  exact ⟨h.1, h.2 _ "https://c5.example/p" rfl rfl (by decide)⟩

/-! ## Claim C3 -/

/-- `extract_structured_data` copies the requested URL into the record. -/
theorem extract_url_eq (loads : String → Option Json) (u : String) (p : ParseOutcome) :
    (extract_structured_data loads u p).url = u := by
  cases p <;> rfl

/-- Every branch of the per-URL pipeline produces a record carrying that URL. -/
theorem process_url_url_eq (env : UrlEnv) (u : String) : (process_url env u).url = u := by
  unfold process_url
  repeat' split
  all_goals first | rfl | exact extract_url_eq _ _ _

/-- An uncaught per-URL exception yields the `failed` placeholder record. -/
theorem process_url_of_raises (env : UrlEnv) (u : String) (hr : env.raises = true) :
    process_url env u = make_empty u "failed" := by
  unfold process_url
  rw [if_pos hr]

/-- C3: the pipeline emits exactly one record per input URL and in input order
(so `(output).map url = input`, hence `|output| = |input|`), and an uncaught
error while processing one URL yields a `failed` record for that URL while the
records before and after it are produced unchanged. -/
theorem pipeline_one_record_per_url (world : String → UrlEnv) :
    (∀ urls : List String, (start_scraping world urls).map Rec.url = urls) ∧
    (∀ pre : List String, ∀ u : String, ∀ post : List String,
      (world u).raises = true →
      start_scraping world (pre ++ u :: post) =
        start_scraping world pre ++
          make_empty u "failed" :: start_scraping world post) := by
  constructor
  · intro urls
    induction urls with
    | nil => rfl
    | cons u rest ih => simp [start_scraping, process_url_url_eq, ih]
  · intro pre u post hr
    induction pre with
    | nil => simp [start_scraping, process_url_of_raises (world u) u hr]
    | cons p rest ih => simp [start_scraping, ih]

/-- The environment used by the C3 witness: every URL raises an uncaught
exception. -/
def world3 : String → UrlEnv := fun _ =>
  { raises := true, robots := fun _ => none, att := fun _ => Attempt.raise,
    loads := fun _ => none, parse := fun _ => ParseOutcome.fail }

/-- C3 witness: a concrete run keeps one record per URL in order, and a
raising URL in the middle degrades to a `failed` record without touching its
neighbours. -/
theorem pipeline_one_record_witness :
    (start_scraping world3 ["https://a.example", "https://b.example"]).map Rec.url =
      ["https://a.example", "https://b.example"] ∧
    start_scraping world3
        (["https://a.example"] ++ "https://x.example" :: ["https://b.example"]) =
      start_scraping world3 ["https://a.example"] ++
        make_empty "https://x.example" "failed" ::
          start_scraping world3 ["https://b.example"] :=
  ⟨(pipeline_one_record_per_url world3).1 _,
   (pipeline_one_record_per_url world3).2 ["https://a.example"] "https://x.example"
     ["https://b.example"] rfl⟩

/-! ## Claim C4 -/

/-- All optional fields absent and no CTAs: the payload shape of every
non-`ok` record. -/
def empty_fields (r : Rec) : Prop :=
  r.title = none ∧ r.h1 = none ∧ r.meta_description = none ∧ r.rating = none ∧
  r.review_count = none ∧ r.pricing = none ∧ r.ctas = []

/-- The placeholder records of main.py have the empty payload shape. -/
theorem make_empty_fields (u s : String) : empty_fields (make_empty u s) :=
  ⟨rfl, rfl, rfl, rfl, rfl, rfl, rfl⟩

/-- C4: for every record produced by the extractor or the per-URL pipeline,
a status other than `ok` implies title, h1, meta description, rating, review
count and pricing are all absent and the CTA list is empty. -/
theorem nonok_record_empty :
    (∀ loads : String → Option Json, ∀ url : String, ∀ p : ParseOutcome,
      (extract_structured_data loads url p).status ≠ "ok" →
      empty_fields (extract_structured_data loads url p)) ∧
    (∀ env : UrlEnv, ∀ url : String,
      (process_url env url).status ≠ "ok" → empty_fields (process_url env url)) := by
  have hext : ∀ loads : String → Option Json, ∀ url : String, ∀ p : ParseOutcome,
      (extract_structured_data loads url p).status ≠ "ok" →
      empty_fields (extract_structured_data loads url p) := by
    intro loads url p h
    cases p with
    | ok soup => exact absurd rfl h
    | fail => exact ⟨rfl, rfl, rfl, rfl, rfl, rfl, rfl⟩
  refine ⟨hext, ?_⟩
  intro env url
  unfold process_url
  repeat' split
  all_goals intro h
  all_goals first | exact make_empty_fields _ _ | exact hext _ _ _ h

/-- C4 witness: a raising URL gives a non-`ok` pipeline record with the empty
payload shape, and a parse failure gives a non-`ok` extractor record with the
empty payload shape. -/
theorem nonok_record_empty_witness :
    empty_fields (extract_structured_data (fun _ => none) "https://c4.example"
      ParseOutcome.fail) ∧
    empty_fields (process_url
      { raises := true, robots := fun _ => none, att := fun _ => Attempt.raise,
        loads := fun _ => none, parse := fun _ => ParseOutcome.fail }
      "https://c4.example") :=
  ⟨nonok_record_empty.1 _ _ _ (by decide), nonok_record_empty.2 _ _ (by decide)⟩

/-! ## Claim C6 -/

/-- C6: for every robots environment, URL and agent name, a missing or
unreadable robots.txt for the URL's base domain fail-opens to `(True, "")`;
a fetched policy that denies the agent yields `False` with exactly the reason
`Robots.txt disallowed access for agent '<agent>'`; and an allowing policy
yields `(True, "")`. -/
theorem robots_gate (robotsEnv : String → Option (String → String → Bool))
    (url agent : String) :
    (robotsEnv (get_base_domain url) = none →
      is_allowed robotsEnv url agent = (true, "")) ∧
    (∀ p, robotsEnv (get_base_domain url) = some p →
      (p agent url = false →
        is_allowed robotsEnv url agent = (false, disallow_reason agent)) ∧
      (p agent url = true → is_allowed robotsEnv url agent = (true, ""))) := by
  refine ⟨fun h => ?_, fun p hp => ⟨fun hd => ?_, fun ha => ?_⟩⟩
  · simp [is_allowed, h]
  · simp [is_allowed, hp, hd]
  · simp [is_allowed, hp, ha]

/-- The robots environment of the C6 witness: one origin with a deny-all
policy, everything else unreadable. -/
def robots6 : String → Option (String → String → Bool) := fun d =>
  if d = "https://w.example" then some (fun _ _ => false) else none

/-- C6 witness: the denying origin yields the exact formatted reason, and an
origin whose robots.txt cannot be read fail-opens. -/
theorem robots_gate_witness :
    is_allowed robots6 "https://w.example/page" "TestAgent" =
      (false, disallow_reason "TestAgent") ∧
    is_allowed robots6 "https://open.example/page" "TestAgent" = (true, "") :=
  ⟨((robots_gate robots6 "https://w.example/page" "TestAgent").2
      (fun _ _ => false) rfl).1 rfl,
   (robots_gate robots6 "https://open.example/page" "TestAgent").1 rfl⟩

/-! ## Claim C7 -/

/-- The class-keyword loop of `get_metric` finds nothing when no scanned
element's combined class string contains a keyword. -/
theorem metricClassLoop_none (ty : String) (keys : List String) (l : List Node)
    (h : ∀ e ∈ l, ∀ k ∈ keys, hasSub (combinedClasses e) k = false) :
    metricClassLoop ty keys l = none := by
  induction l with
  | nil => rfl
  | cons e rest ih =>
    have hany : keys.any (fun k => hasSub (combinedClasses e) k) = false := by
      rw [List.any_eq_false]
      intro k hk
      simp [h e (by simp) k hk]
    simp only [metricClassLoop, hany, Bool.false_eq_true, if_false]
    exact ih (fun e' he' k hk => h e' (by simp [he']) k hk)

/-- A DOM with no rating markers — no `itemprop="ratingValue"`, no
`aria-label` containing `rating`, no class list containing a
rating/stars/score keyword — makes `get_metric` come up empty for ratings. -/
theorem get_metric_rating_none (soup : NodeList)
    (hip : ∀ e ∈ allElemsList soup, hasItemprop "ratingValue" e = false)
    (haria : ∀ e ∈ allElemsList soup, ariaMatches "rating" e = false)
    (hcls : ∀ e ∈ allElemsList soup,
      ∀ k ∈ (["rating", "stars", "score"] : List String),
      hasSub (combinedClasses e) k = false) :
    get_metric soup "rating" = none := by
  have h1 : metricItemprop soup "ratingValue" = none := by
    unfold metricItemprop
    rw [List.find?_eq_none.mpr (fun e he => by simp [hip e he])]
  have h2 : metricAria soup "rating" = none := by
    unfold metricAria
    rw [List.find?_eq_none.mpr (fun e he => by simp [haria e he])]
  have h3 : metricClassLoop "rating" ["rating", "stars", "score"]
      ((allElemsList soup).filter (fun e => (classesOf e).isSome)) = none :=
    metricClassLoop_none _ _ _
      (fun e he k hk => hcls e (List.mem_filter.mp he).1 k hk)
  unfold get_metric
  simp [h1, h2, h3]

/-- C7 (amended): on a page whose DOM contains no rating markers, the
extracted rating is exactly what the JSON-LD fallback reads — the first
embedded object whose `aggregateRating.ratingValue` path resolves to a
string or number; when that read yields `"4.5"`, the record's rating is
`"4.5"`. -/
theorem rating_precedence (soup : NodeList) (loads : String → Option Json)
    (url : String)
    (hip : ∀ e ∈ allElemsList soup, hasItemprop "ratingValue" e = false)
    (haria : ∀ e ∈ allElemsList soup, ariaMatches "rating" e = false)
    (hcls : ∀ e ∈ allElemsList soup,
      ∀ k ∈ (["rating", "stars", "score"] : List String),
      hasSub (combinedClasses e) k = false)
    (hjson : read_json_data (get_json_ld loads soup)
      ["aggregateRating", "ratingValue"] = some "4.5") :
    (extract_structured_data loads url (ParseOutcome.ok soup)).rating = some "4.5" := by
  have hm := get_metric_rating_none soup hip haria hcls
  simp [extract_structured_data, hm, orElseOpt, hjson]

/-- The single JSON-LD page of the C7 witness. -/
def soup7 : NodeList :=
  NodeList.cons
    (Node.elem "script" [("type", "application/ld+json")] none
      (NodeList.cons (Node.text "LD") NodeList.nil))
    NodeList.nil

/-- `json.loads` for the C7 witness page. -/
def loads7 : String → Option Json := fun s =>
  if s = "LD" then
    some (Json.obj [("aggregateRating", Json.obj [("ratingValue", Json.str "4.5")])])
  else none

/-- C7 witness: the marker-free page with one `ratingValue = "4.5"` JSON-LD
object extracts rating `"4.5"`. -/
theorem rating_precedence_witness :
    (extract_structured_data loads7 "https://c7.example"
      (ParseOutcome.ok soup7)).rating = some "4.5" :=
  rating_precedence soup7 loads7 "https://c7.example"
    (by decide) (by decide) (by decide) (by decide)

/-- The two-object JSON-LD page of the C7 counterexample. -/
def soup7c : NodeList :=
  NodeList.cons
    (Node.elem "script" [("type", "application/ld+json")] none
      (NodeList.cons (Node.text "A") NodeList.nil))
    (NodeList.cons
      (Node.elem "script" [("type", "application/ld+json")] none
        (NodeList.cons (Node.text "B") NodeList.nil))
      NodeList.nil)

/-- `json.loads` for the C7 counterexample page: object A rates 3.9, object B
rates 4.5. -/
def loads7c : String → Option Json := fun s =>
  if s = "A" then
    some (Json.obj [("aggregateRating", Json.obj [("ratingValue", Json.str "3.9")])])
  else if s = "B" then
    some (Json.obj [("aggregateRating", Json.obj [("ratingValue", Json.str "4.5")])])
  else none

/-- The `aggregateRating.ratingValue` reading of one metadata object, as
`read_json_data` would convert it. -/
def ratingValOf (o : Json) : Option String :=
  match walkPath o ["aggregateRating", "ratingValue"] with
  | some v => jsonToStrVal v
  | none => none

/-- C7 counterexample: a page with no DOM rating markers whose metadata
contains an object with `aggregateRating.ratingValue = "4.5"` — but a 3.9
object before it — extracts rating `"3.9"`, not `"4.5"`: the first resolving
object wins, which refutes the claim quantified over every such page. -/
theorem rating_precedence_cex :
    ((allElemsList soup7c).all (fun e =>
      !hasItemprop "ratingValue" e && !ariaMatches "rating" e &&
      !((["rating", "stars", "score"] : List String).any
        (fun k => hasSub (combinedClasses e) k)))) = true ∧
    (get_json_ld loads7c soup7c).map ratingValOf = [some "3.9", some "4.5"] ∧
    (extract_structured_data loads7c "https://c7.example"
      (ParseOutcome.ok soup7c)).rating = some "3.9" ∧
    (some "3.9" : Option String) ≠ some "4.5" :=
  ⟨by decide, by decide, by decide, by decide⟩

/-! ## Claim C8 -/

/-- The page of C8: its only rating signal is a text-free element with class
`star-rating Three`. -/
def soup8 : NodeList :=
  NodeList.cons
    (Node.elem "html" [] none
      (NodeList.cons
        (Node.elem "body" [] none
          (NodeList.cons
            (Node.elem "div" [] (some ["star-rating", "Three"]) NodeList.nil)
            NodeList.nil))
        NodeList.nil))
    NodeList.nil

/-- C8: on a page whose only rating signal is a text-free element with class
`star-rating Three`, the extracted rating is `"Three"` — the lower-cased
joined class tokens with the `star-rating` marker removed, stripped and
capitalized. -/
theorem star_rating_class_value :
    (extract_structured_data (fun _ => none) "https://c8.example"
      (ParseOutcome.ok soup8)).rating = some "Three" ∧
    some "Three" = some (pyCapitalize (strTrim
      (replaceStr (strLower (joinStr " " ["star-rating", "Three"]))
        "star-rating" ""))) :=
  ⟨by decide, by decide⟩

/-! ## Claim C9 -/

/-- The page of C9: a link `Sign Up Free` with href `/join`. -/
def soup9 : NodeList :=
  NodeList.cons
    (Node.elem "body" [] none
      (NodeList.cons
        (Node.elem "a" [("href", "/join")] none
          (NodeList.cons (Node.text "Sign Up Free") NodeList.nil))
        NodeList.nil))
    NodeList.nil

/-- C9 counterexample: on the page `https://example.com/x`, the CTA for the
link is produced (its text matches the keywords), but its href is
`https://example.com/join` — the absolute-path reference `/join` replaces the
base path entirely — and not `https://example.com/x/join` as claimed. -/
theorem cta_resolved_cex :
    get_btns soup9 "https://example.com/x" =
      [{ text := "Sign Up Free", href := "https://example.com/join" }] ∧
    ("https://example.com/join" : String) ≠ "https://example.com/x/join" :=
  ⟨by decide, by decide⟩

/-- C9 (amended): the page `https://example.com/x` with a link of text
`Sign Up Free` and href `/join` yields exactly one CTA entry, whose href is
the reference resolved against the page URL to absolute form,
`https://example.com/join`, matching `urljoin`. -/
theorem cta_resolved :
    get_btns soup9 "https://example.com/x" =
      [{ text := "Sign Up Free", href := urljoin "https://example.com/x" "/join" }] ∧
    urljoin "https://example.com/x" "/join" = "https://example.com/join" :=
  ⟨by decide, by decide⟩

/-! ## Claim C10 -/

/-- The keyword gate of `get_btns` only ever emits the non-empty text it was
given, and leaves the href empty for every non-link element. -/
theorem ctaFinish_shape (url : String) (e : Node) (t : String) (c : Cta)
    (h : ctaFinish url e t = some c) :
    c.text ≠ "" ∧ (tagOf e ≠ "a" → c.href = "") := by
  unfold ctaFinish at h
  by_cases ht : t = ""
  · simp [ht] at h
  · rw [if_neg ht] at h
    split at h
    · cases h
      exact ⟨ht, fun hna => by simp [ctaHref, hna]⟩
    · cases h

/-- Every CTA one candidate element contributes has non-empty text, and empty
href when the element is not a link. -/
theorem ctaOfElem_shape (url : String) (e : Node) (c : Cta)
    (h : ctaOfElem url e = some c) :
    c.text ≠ "" ∧ (tagOf e ≠ "a" → c.href = "") := by
  unfold ctaOfElem at h
  split at h
  · split at h
    · cases h
    · exact ctaFinish_shape url e _ c h
  · exact ctaFinish_shape url e _ c h

/-- C10: every CTA entry `get_btns` returns has non-empty display text, and
every entry contributed by a non-link element (button or input) has an empty
href. -/
theorem cta_entries_shape :
    (∀ soup : NodeList, ∀ url : String, ∀ c ∈ get_btns soup url, c.text ≠ "") ∧
    (∀ url : String, ∀ e : Node, ∀ c : Cta, tagOf e ≠ "a" →
      ctaOfElem url e = some c → c.href = "") := by
  constructor
  · intro soup url c hc
    unfold get_btns at hc
    obtain ⟨e, _, hce⟩ := List.mem_filterMap.mp hc
    exact (ctaOfElem_shape url e c hce).1
  · intro url e c hne h
    exact (ctaOfElem_shape url e c h).2 hne

/-- The page of the C10 witness: a qualifying link and a qualifying button. -/
def soup10 : NodeList :=
  NodeList.cons
    (Node.elem "a" [("href", "/signup")] none
      (NodeList.cons (Node.text "Get started") NodeList.nil))
    (NodeList.cons
      (Node.elem "button" [] none
        (NodeList.cons (Node.text "Try demo") NodeList.nil))
      NodeList.nil)

/-- The button element of the C10 witness. -/
def btn10 : Node :=
  Node.elem "button" [] none (NodeList.cons (Node.text "Try demo") NodeList.nil)

/-- C10 witness: a concrete emitted CTA has non-empty text, and the CTA a
concrete button contributes has empty href. -/
theorem cta_entries_shape_witness :
    ({ text := "Get started", href := "https://s.example/signup" } : Cta).text ≠ "" ∧
    ({ text := "Try demo", href := "" } : Cta).href = "" :=
  ⟨cta_entries_shape.1 soup10 "https://s.example/p" _ (by decide),
   cta_entries_shape.2 "https://s.example/p" btn10 _ (by decide) (by decide)⟩
